import Mathlib

/-!
Verification of the orchestration core of the visual-qa-agent repository.

The definitions below are a shallow embedding of the TypeScript source:
* `src/services/agents/baseAgent.ts` — `AgentMessage`, `AgentFindings`,
  `Agent.updateProgress`, `Agent.reportFindings`, `Agent.ask`, `MessageBus`;
* `src/services/agents/coordinatorAgent.ts` — `orchestrate`, `synthesize`,
  `generateExecutiveSummary`;
* `src/services/agents/accessibilityAgent.ts`, `discoveryAgent.ts` — the
  progress traces and the per-agent internal catch handler;
* `src/services/openai.ts` — `createOpenAIClient`.

Asynchronous effects are made explicit: an exception-throwing computation is a
value of `Except String _`, a promise's outcome is an `Except` value, and the
stream of messages seen by a bus subscriber is a `List AgentMessage`.
JavaScript numbers that carry fractional values (confidence, progress
percentages) are modelled as `ℚ`; `Date.now()` timestamps as `ℕ`.
-/

/-- An issue record as produced by the agents and consumed by
`CoordinatorAgent.synthesize` (the fields the synthesis step reads). -/
structure Issue where
  severity : String
  title : String
  description : String
  location : String
  suggestion : String
deriving DecidableEq

/-- `AgentFindings.metadata` from baseAgent.ts (all fields optional). -/
structure Metadata where
  pagesAnalyzed : Option ℕ := none
  elementsChecked : Option ℕ := none
  aiTokensUsed : Option ℕ := none
deriving DecidableEq

/-- `AgentFindings` from baseAgent.ts. -/
structure AgentFindings where
  agentId : String
  agentName : String
  category : String
  issues : List Issue
  suggestions : List String
  confidence : ℚ
  analysisTime : ℚ
  metadata : Metadata := {}
deriving DecidableEq

/-- The five message kinds of `AgentMessage.type` in baseAgent.ts. -/
inductive MessageType where
  | TASK_ASSIGNMENT
  | PROGRESS_UPDATE
  | FINDINGS
  | QUESTION
  | RESPONSE
deriving DecidableEq

/-- The per-kind payload shapes actually constructed in the source
(`updateProgress`, `reportFindings`, `ask`, and the response path). -/
inductive Payload where
  | task (info : String)
  | progress (message : String) (progress : ℚ)
  | findings (findings : AgentFindings)
  | question (question : String) (targetAgentId : String)
  | response (answer : String)
deriving DecidableEq

/-- `AgentMessage` from baseAgent.ts. -/
structure AgentMessage where
  agentId : String
  type : MessageType
  payload : Payload
  timestamp : ℕ
  correlationId : String
deriving DecidableEq

/-- The correlation-id scheme used by `updateProgress` and `reportFindings`:
the template string `${this.id}-${Date.now()}`. -/
def mkCorrelationId (agentId : String) (t : ℕ) : String :=
  agentId ++ "-" ++ toString t

/-- `Agent.updateProgress` from baseAgent.ts: the `PROGRESS_UPDATE` message it
publishes, as a function of the agent id, the two arguments, and the value of
`Date.now()` at the instant of the call. -/
def Agent.updateProgress (agentId message : String) (progress : ℚ) (t : ℕ) :
    AgentMessage :=
  { agentId := agentId
    type := MessageType.PROGRESS_UPDATE
    payload := Payload.progress message progress
    timestamp := t
    correlationId := mkCorrelationId agentId t }

/-- `Agent.reportFindings` from baseAgent.ts: the `FINDINGS` message it
publishes. -/
def Agent.reportFindings (agentId : String) (findings : AgentFindings) (t : ℕ) :
    AgentMessage :=
  { agentId := agentId
    type := MessageType.FINDINGS
    payload := Payload.findings findings
    timestamp := t
    correlationId := mkCorrelationId agentId t }

/-- A bus subscriber callback; it may throw (`Except.error`). -/
def Subscriber := AgentMessage → Except String Unit

/-- Helper for `MessageBus.publish`: runs the subscriber callbacks in order
from position `i`, recording the index of every callback that is invoked.
`this.subscribers.forEach(sub => sub(message))` does not catch: an exception
thrown by a callback ends the iteration and propagates. -/
def MessageBus.publishAux (m : AgentMessage) :
    List Subscriber → ℕ → List ℕ × Except String Unit
  | [], _ => ([], Except.ok ())
  | s :: rest, i =>
    match s m with
    | Except.error e => ([i], Except.error e)
    | Except.ok _ =>
      let r := MessageBus.publishAux m rest (i + 1)
      (i :: r.1, r.2)

/-- `MessageBus.publish` from baseAgent.ts: delivers `m` to the subscriber
list in subscription order; returns the indices of the callbacks that were
invoked and the outcome (an uncaught callback exception propagates). -/
def MessageBus.publish (subs : List Subscriber) (m : AgentMessage) :
    List ℕ × Except String Unit :=
  MessageBus.publishAux m subs 0

/-- The resolution condition of `Agent.ask` from baseAgent.ts: the callback it
subscribes resolves the promise on the first published message with
`msg.correlationId === correlationId && msg.type === 'RESPONSE'`; there is no
timeout and no rejection path.  `askAwait cid msgs` is the message (if any) in
the published stream `msgs` that settles the promise. -/
def askAwait (correlationId : String) (msgs : List AgentMessage) :
    Option AgentMessage :=
  msgs.find? (fun m => m.correlationId == correlationId && m.type == MessageType.RESPONSE)

/-- `createOpenAIClient` from openai.ts, abstracted over the stored credential:
`if (!apiKey) throw new Error(...)`, otherwise a client (represented by its
key) is produced.  An absent or empty stored key is falsy. -/
def createOpenAIClient (storedKey : Option String) : Except String String :=
  match storedKey with
  | none => Except.error "OpenAI API Key not found. Please set it in the extension settings."
  | some k =>
    if k == "" then
      Except.error "OpenAI API Key not found. Please set it in the extension settings."
    else Except.ok k

deriving instance DecidableEq for Except

/-- An agent as the coordinator sees it during one run: its immutable identity
plus the outcome of its `analyze(context)` promise (`Except.error reason`
models a rejection whose `error.message` is `reason`). -/
structure Agent where
  id : String
  name : String
  emoji : String
  result : Except String AgentFindings
deriving DecidableEq

/-- `severityOrder` from `CoordinatorAgent.synthesize`:
`{ critical: 4, high: 3, medium: 2, low: 1 }`, with the `|| 0` fallback for an
unrecognized severity. -/
def severityOrder (s : String) : ℕ :=
  if s == "critical" then 4
  else if s == "high" then 3
  else if s == "medium" then 2
  else if s == "low" then 1
  else 0

/-- The issue shape built inside `synthesize`: the spread of the issue plus
`source` (the agent name) and `sourceEmoji`. -/
structure TaggedIssue where
  issue : Issue
  source : String
  sourceEmoji : String
deriving DecidableEq

/-- The sort key of the comparator `(a, b) => severityB - severityA`. -/
def rank (t : TaggedIssue) : ℕ := severityOrder t.issue.severity

/-- Insert `x` before the first element of strictly lower rank (after every
element of greater or equal rank). -/
def insertByRank (x : TaggedIssue) : List TaggedIssue → List TaggedIssue
  | [] => [x]
  | y :: ys => if rank y < rank x then x :: y :: ys else y :: insertByRank x ys

/-- `allIssues.sort((a, b) => severityB - severityA)` in `synthesize`.
`Array.prototype.sort` is stable (ECMAScript 2019), and for a comparator that
compares a pure key the stable descending result is unique, so it is modelled
extensionally by a stable insertion sort processing the array left to right. -/
def sortBySeverity (l : List TaggedIssue) : List TaggedIssue :=
  l.foldl (fun acc x => insertByRank x acc) []

/-- `this.agents.find(a => a.id === f.agentId)?.emoji || '📋'` in
`synthesize` (an absent agent or a falsy emoji string falls back). -/
def lookupEmoji (agents : List Agent) (agentId : String) : String :=
  match agents.find? (fun a => a.id == agentId) with
  | some a => if a.emoji == "" then "📋" else a.emoji
  | none => "📋"

/-- `this.agents.find(a => a.id === f.agentId)?.emoji` in the per-agent stats
(no fallback there: `undefined` is possible). -/
def lookupEmojiOpt (agents : List Agent) (agentId : String) : Option String :=
  (agents.find? (fun a => a.id == agentId)).map (fun a => a.emoji)

/-- The flatten step of `synthesize`: all findings' issues concatenated in
findings order, each tagged with its source agent. -/
def allIssuesOf (agents : List Agent) (findings : List AgentFindings) :
    List TaggedIssue :=
  findings.flatMap (fun f =>
    f.issues.map (fun issue =>
      { issue := issue, source := f.agentName, sourceEmoji := lookupEmoji agents f.agentId }))

/-- One entry of `stats.agentStats` in `synthesize`. -/
structure AgentStat where
  agent : String
  emoji : Option String
  issuesFound : ℕ
  confidence : ℚ
  analysisTime : ℚ
deriving DecidableEq

/-- The `stats` object of `synthesize`. -/
structure SummaryStats where
  totalIssues : ℕ
  critical : ℕ
  high : ℕ
  medium : ℕ
  low : ℕ
  agentStats : List AgentStat
deriving DecidableEq

/-- The return value of `synthesize`. -/
structure SynthesizedReport where
  summary : SummaryStats
  prioritizedIssues : List TaggedIssue
  agentFindings : List AgentFindings
deriving DecidableEq

/-- `CoordinatorAgent.synthesize`: flatten and tag all issues, sort by
severity rank descending (stable), and compute the aggregate stats. -/
def synthesize (agents : List Agent) (findings : List AgentFindings) :
    SynthesizedReport :=
  let allIssues := sortBySeverity (allIssuesOf agents findings)
  { summary :=
      { totalIssues := allIssues.length
        critical := (allIssues.filter (fun i => i.issue.severity == "critical")).length
        high := (allIssues.filter (fun i => i.issue.severity == "high")).length
        medium := (allIssues.filter (fun i => i.issue.severity == "medium")).length
        low := (allIssues.filter (fun i => i.issue.severity == "low")).length
        agentStats := findings.map (fun f =>
          { agent := f.agentName
            emoji := lookupEmojiOpt agents f.agentId
            issuesFound := f.issues.length
            confidence := f.confidence
            analysisTime := f.analysisTime }) }
    prioritizedIssues := allIssues
    agentFindings := findings }

/-- The degraded findings record substituted by the per-agent catch block in
`CoordinatorAgent.orchestrate` when `agent.analyze(context)` rejects. -/
def degradedFindings (agent : Agent) (reason : String) : AgentFindings :=
  { agentId := agent.id
    agentName := agent.name
    category := "error"
    issues := []
    suggestions := ["Agent failed: " ++ reason]
    confidence := 0
    analysisTime := 0
    metadata := {} }

/-- One dispatched agent as settled by `Promise.all`: the fulfilled findings,
or the degraded record produced by the catch block. -/
def settleAgent (a : Agent) : AgentFindings :=
  match a.result with
  | Except.ok f => f
  | Except.error reason => degradedFindings a reason

/-- The prompt template of `generateExecutiveSummary`. -/
def buildPrompt (synthesized : SynthesizedReport) : String :=
  "\nGenerate a concise executive summary for this multi-agent QA test:\n\n**Statistics:**\n- Total Issues: "
    ++ toString synthesized.summary.totalIssues
    ++ "\n- Critical: " ++ toString synthesized.summary.critical
    ++ "\n- High: " ++ toString synthesized.summary.high
    ++ "\n- Medium: " ++ toString synthesized.summary.medium
    ++ "\n- Low: " ++ toString synthesized.summary.low
    ++ "\n\n**Agent Performance:**\n"
    ++ String.intercalate "\n" (synthesized.summary.agentStats.map (fun a =>
        "- " ++ a.emoji.getD "undefined" ++ " " ++ a.agent ++ ": Found "
          ++ toString a.issuesFound ++ " issues (" ++ toString a.analysisTime ++ "ms)"))
    ++ "\n\n**Top 5 Issues:**\n"
    ++ String.intercalate "\n" ((synthesized.prioritizedIssues.take 5).enum.map (fun p =>
        toString (p.1 + 1) ++ ". [" ++ p.2.issue.severity.toUpper ++ "] "
          ++ p.2.issue.title ++ " (Found by " ++ p.2.sourceEmoji ++ " " ++ p.2.source ++ ")"))
    ++ "\n\nProvide:\n1. Overall health assessment (1-2 sentences)\n2. Top 3 priorities to fix\n3. Estimated effort (hours)\n\nKeep it under 200 words.\n"

/-- `CoordinatorAgent.generateExecutiveSummary`, abstracted over the outcome
of `this.callAI(prompt)` (the `ai` collaborator): the AI text on success, the
deterministic template on any failure. -/
def generateExecutiveSummary (ai : String → Except String String)
    (synthesized : SynthesizedReport) : String :=
  match ai (buildPrompt synthesized) with
  | Except.ok summary => summary
  | Except.error _ =>
    "Multi-agent analysis complete. Found " ++ toString synthesized.summary.totalIssues
      ++ " issues across " ++ toString synthesized.summary.agentStats.length
      ++ " specialized agents."

/-- The triple returned by `CoordinatorAgent.orchestrate`. -/
structure OrchestrationResult where
  executiveSummary : String
  allFindings : List AgentFindings
  synthesizedReport : SynthesizedReport

/-- `CoordinatorAgent.orchestrate`: settle every dispatched agent (fulfilled
or caught-and-degraded), synthesize, and generate the executive summary. -/
def orchestrate (agents : List Agent) (ai : String → Except String String) :
    OrchestrationResult :=
  let allFindings := agents.map settleAgent
  let synthesized := synthesize agents allFindings
  { executiveSummary := generateExecutiveSummary ai synthesized
    allFindings := allFindings
    synthesizedReport := synthesized }

/-- The coordinator-published progress value when dispatching agent `i` of
`n`: `10 + (index / this.agents.length) * 60` in `orchestrate`. -/
def dispatchProgress (n i : ℕ) : ℚ := 10 + ((i : ℚ) / (n : ℚ)) * 60

/-- The sequence of `(message, progress)` pairs the coordinator itself passes
to `updateProgress` over one completed `orchestrate` run. -/
def orchestrateProgressEvents (agents : List Agent) : List (String × ℚ) :=
  ("Spawning specialized agents...", 5)
    :: (agents.enum.map (fun p =>
          ("Running " ++ p.2.name ++ "...", dispatchProgress agents.length p.1)))
    ++ [("Synthesizing findings...", 75),
        ("Generating executive summary...", 90),
        ("Complete!", 100)]

/-- Modelled from the spec: the overall progress value the specification's
phase-weight sentence prescribes for a worker `i` of `n` whose local progress
is `p` — the worker's local 0–100% mapped into its `1/n` share of the 10–75%
band. -/
def specInterpolatedProgress (n i : ℕ) (p : ℚ) : ℚ :=
  10 + 65 * ((i : ℚ) + p / 100) / (n : ℚ)

/-- The `(message, progress)` arguments of the `updateProgress` calls inside
the `try` block of `AccessibilityAgent.analyze`, in program order (the final
`('Complete!', 100)` is handled separately since it ends the block). -/
def accessibilityInTrySteps : List (String × ℕ) :=
  [("Checking image alt text...", 15),
   ("Checking form labels...", 30),
   ("Analyzing color contrast...", 45),
   ("Checking heading structure...", 60),
   ("Checking keyboard navigation...", 75),
   ("Generating AI insights...", 90)]

/-- The progress events `AccessibilityAgent.analyze` publishes over one run.
`none` is a run whose `try` block completes; `some k` is a run whose body
throws after `k` of the six intermediate updates (the thrown error is caught,
so no further progress is published).  The leading `('Starting accessibility
audit...', 5)` precedes the `try` block. -/
def accessibilityProgressTrace (failStep : Option (Fin 7)) : List (String × ℕ) :=
  match failStep with
  | none => ("Starting accessibility audit...", 5) :: accessibilityInTrySteps ++ [("Complete!", 100)]
  | some k => ("Starting accessibility audit...", 5) :: accessibilityInTrySteps.take k

/-- The intermediate `updateProgress` calls inside the `try` block of
`DiscoveryAgent.analyze`. -/
def discoveryInTrySteps : List (String × ℕ) :=
  [("Analyzing links...", 30),
   ("Finding interactive elements...", 60),
   ("Analyzing dynamic content...", 80)]

/-- The progress events `DiscoveryAgent.analyze` publishes over one run, with
the same error-injection convention as `accessibilityProgressTrace`. -/
def discoveryProgressTrace (failStep : Option (Fin 4)) : List (String × ℕ) :=
  match failStep with
  | none => ("Mapping page structure...", 10) :: discoveryInTrySteps ++ [("Complete!", 100)]
  | some k => ("Mapping page structure...", 10) :: discoveryInTrySteps.take k

/-- The outcome of the rule-based body inside an agent's `try` block: it
either builds the findings record, or throws with the findings as mutated so
far and an error message. -/
inductive BodyOutcome where
  | ok (findings : AgentFindings)
  | threw (sofar : AgentFindings) (msg : String)

/-- The findings `AccessibilityAgent.analyze` returns when its body throws:
the catch block sets `confidence = 0.3`, appends the error suggestion, and the
code after the catch stamps `analysisTime`. -/
def accessibilityErrorFindings (sofar : AgentFindings) (msg : String)
    (elapsed : ℚ) : AgentFindings :=
  { sofar with
      confidence := 3 / 10
      suggestions := sofar.suggestions ++ ["Error during analysis: " ++ msg]
      analysisTime := elapsed }

/-- `AccessibilityAgent.analyze` around its internal `try`/`catch`: the
returned promise outcome together with the `FINDINGS` message published by
`this.reportFindings(findings)`.  The catch block swallows the body's error,
and nothing after it throws (bus subscribers are assumed not to throw), so the
promise always fulfills. -/
def accessibilityAnalyze (body : BodyOutcome) (elapsed : ℚ) (t : ℕ) :
    Except String (AgentFindings × AgentMessage) :=
  let findings :=
    match body with
    | BodyOutcome.ok f => { f with analysisTime := elapsed }
    | BodyOutcome.threw sofar msg => accessibilityErrorFindings sofar msg elapsed
  Except.ok (findings, Agent.reportFindings "accessibility" findings t)

/-- The findings `DiscoveryAgent.analyze` returns when its body throws: its
catch block sets `confidence = 0.5` and appends the error suggestion. -/
def discoveryErrorFindings (sofar : AgentFindings) (msg : String)
    (elapsed : ℚ) : AgentFindings :=
  { sofar with
      confidence := 1 / 2
      suggestions := sofar.suggestions ++ ["Error during analysis: " ++ msg]
      analysisTime := elapsed }

/-- `DiscoveryAgent.analyze` around its internal `try`/`catch`, modelled the
same way as `accessibilityAnalyze`. -/
def discoveryAnalyze (body : BodyOutcome) (elapsed : ℚ) (t : ℕ) :
    Except String (AgentFindings × AgentMessage) :=
  let findings :=
    match body with
    | BodyOutcome.ok f => { f with analysisTime := elapsed }
    | BodyOutcome.threw sofar msg => discoveryErrorFindings sofar msg elapsed
  Except.ok (findings, Agent.reportFindings "discovery" findings t)

/-- Concrete issues for the worked scenarios: Worker A's three issues. -/
def issA1 : Issue :=
  { severity := "critical", title := "Broken navigation", description := "Main nav link 404s",
    location := "nav", suggestion := "Fix the href" }

def issA2 : Issue :=
  { severity := "high", title := "Missing Alt Attribute", description := "Image has no alt",
    location := "img", suggestion := "Add alt text" }

def issA3 : Issue :=
  { severity := "low", title := "Multiple H1 Headings", description := "Two H1s found",
    location := "document", suggestion := "Keep one H1" }

/-- Worker B's two issues. -/
def issB1 : Issue :=
  { severity := "critical", title := "Form Input Missing Label", description := "Unlabeled input",
    location := "input", suggestion := "Add a label" }

def issB2 : Issue :=
  { severity := "medium", title := "Missing H1 Heading", description := "No H1 found",
    location := "document", suggestion := "Add an H1" }

/-- Worker A's findings. -/
def fA : AgentFindings :=
  { agentId := "discovery", agentName := "Discovery Agent", category := "structure",
    issues := [issA1, issA2, issA3], suggestions := ["Found 12 links (3 external)"],
    confidence := 1, analysisTime := 42, metadata := {} }

/-- Worker B's findings. -/
def fB : AgentFindings :=
  { agentId := "accessibility", agentName := "Accessibility Agent", category := "accessibility",
    issues := [issB1, issB2], suggestions := [], confidence := 9 / 10,
    analysisTime := 57, metadata := {} }

/-- Worker A, registered first, fulfilling with `fA`. -/
def wA : Agent :=
  { id := "discovery", name := "Discovery Agent", emoji := "🔍", result := Except.ok fA }

/-- Worker B, registered second, fulfilling with `fB`. -/
def wB : Agent :=
  { id := "accessibility", name := "Accessibility Agent", emoji := "♿", result := Except.ok fB }

/-- A worker whose `analyze` rejects with message `boom`. -/
def wFail : Agent :=
  { id := "performance", name := "Performance Agent", emoji := "⚡",
    result := Except.error "boom" }

/-- An AI collaborator that always rejects. -/
def aiDown : String → Except String String := fun _ => Except.error "no api key"

/-- A concrete message for the bus scenarios. -/
def msgDemo : AgentMessage :=
  Agent.updateProgress "discovery" "Mapping page structure..." 10 1700000000000

/-- A subscriber callback that throws on every message. -/
def subThrow : Subscriber := fun _ => Except.error "subscriber crash"

/-- A subscriber callback that returns normally on every message. -/
def subOk : Subscriber := fun _ => Except.ok ()

theorem insertByRank_perm (x : TaggedIssue) (l : List TaggedIssue) :
    (insertByRank x l).Perm (x :: l) := by
  induction l with
  | nil => simp [insertByRank]
  | cons y ys ih =>
    by_cases h : rank y < rank x
    · simp [insertByRank, h]
    · simp only [insertByRank, if_neg h]
      exact (ih.cons y).trans (List.Perm.swap x y ys)

theorem insertByRank_pairwise (x : TaggedIssue) :
    ∀ {l : List TaggedIssue}, l.Pairwise (fun a b => rank b ≤ rank a) →
      (insertByRank x l).Pairwise (fun a b => rank b ≤ rank a) := by
  intro l
  induction l with
  | nil => intro _; simp [insertByRank]
  | cons y ys ih =>
    intro h
    rw [List.pairwise_cons] at h
    obtain ⟨h1, h2⟩ := h
    by_cases hc : rank y < rank x
    · simp only [insertByRank, if_pos hc]
      refine List.Pairwise.cons ?_ (List.Pairwise.cons h1 h2)
      intro b hb
      rcases List.mem_cons.mp hb with rfl | hb
      · exact le_of_lt hc
      · exact (h1 b hb).trans (le_of_lt hc)
    · simp only [insertByRank, if_neg hc]
      refine List.Pairwise.cons ?_ (ih h2)
      intro b hb
      have hb' : b = x ∨ b ∈ ys := by
        simpa using (insertByRank_perm x ys).mem_iff.mp hb
      rcases hb' with rfl | hb'
      · exact le_of_not_lt hc
      · exact h1 b hb'

theorem insertByRank_filter (x : TaggedIssue) (r : ℕ) :
    ∀ (l : List TaggedIssue), l.Pairwise (fun a b => rank b ≤ rank a) →
      (insertByRank x l).filter (fun y => rank y == r)
        = if rank x == r
            then l.filter (fun y => rank y == r) ++ [x]
            else l.filter (fun y => rank y == r) := by
  intro l
  induction l with
  | nil =>
    intro _
    cases hr : (rank x == r) <;> simp [insertByRank, List.filter_cons, hr]
  | cons y ys ih =>
    intro h
    rw [List.pairwise_cons] at h
    obtain ⟨h1, h2⟩ := h
    by_cases hc : rank y < rank x
    · simp only [insertByRank, if_pos hc]
      cases hr : (rank x == r)
      · simp [List.filter_cons, hr]
      · have hxr : rank x = r := by simpa using hr
        have hnil : (y :: ys).filter (fun z => rank z == r) = [] := by
          rw [List.filter_eq_nil_iff]
          intro a ha
          have hle : rank a ≤ rank y := by
            rcases List.mem_cons.mp ha with rfl | ha'
            · exact le_refl _
            · exact h1 a ha'
          have hlt : rank a < r := lt_of_le_of_lt hle (hxr ▸ hc)
          simpa using Nat.ne_of_lt hlt
        simp [List.filter_cons, hr, hnil]
    · simp only [insertByRank, if_neg hc]
      cases hxr : (rank x == r) <;> cases hy : (rank y == r) <;>
        simp [List.filter_cons, hxr, hy, ih h2]

theorem sortCore_pairwise :
    ∀ (l acc : List TaggedIssue),
      acc.Pairwise (fun a b => rank b ≤ rank a) →
      (l.foldl (fun a x => insertByRank x a) acc).Pairwise (fun a b => rank b ≤ rank a) := by
  intro l
  induction l with
  | nil => intro acc h; simpa using h
  | cons x xs ih =>
    intro acc h
    simp only [List.foldl_cons]
    exact ih _ (insertByRank_pairwise x h)

theorem sortCore_perm :
    ∀ (l acc : List TaggedIssue),
      (l.foldl (fun a x => insertByRank x a) acc).Perm (acc ++ l) := by
  intro l
  induction l with
  | nil => intro acc; simp
  | cons x xs ih =>
    intro acc
    simp only [List.foldl_cons]
    exact (ih _).trans (((insertByRank_perm x acc).append_right xs).trans List.perm_middle.symm)

theorem sortCore_filter (r : ℕ) :
    ∀ (l acc : List TaggedIssue),
      acc.Pairwise (fun a b => rank b ≤ rank a) →
      (l.foldl (fun a x => insertByRank x a) acc).filter (fun y => rank y == r)
        = acc.filter (fun y => rank y == r) ++ l.filter (fun y => rank y == r) := by
  intro l
  induction l with
  | nil => intro acc _; simp
  | cons x xs ih =>
    intro acc h
    simp only [List.foldl_cons]
    rw [ih _ (insertByRank_pairwise x h), insertByRank_filter x r acc h]
    cases hxr : (rank x == r) <;> simp [List.filter_cons, hxr]

theorem sortBySeverity_perm (l : List TaggedIssue) : (sortBySeverity l).Perm l := by
  simpa [sortBySeverity] using sortCore_perm l []

theorem sortBySeverity_pairwise (l : List TaggedIssue) :
    (sortBySeverity l).Pairwise (fun a b => rank b ≤ rank a) :=
  sortCore_pairwise l [] (by simp)

theorem sortBySeverity_filter (l : List TaggedIssue) (r : ℕ) :
    (sortBySeverity l).filter (fun y => rank y == r) = l.filter (fun y => rank y == r) := by
  simpa [sortBySeverity] using sortCore_filter r l [] (by simp)

/-- C1: For every completed run of `orchestrate` over `N` registered workers,
the returned `allFindings` has exactly `N` elements — one per dispatched
worker, whether its `analyze` fulfilled or rejected — and when all `N`
workers succeed, the number of `prioritizedIssues` equals the sum of the
issue counts of all findings. -/
theorem orchestrate_allFindings_length (agents : List Agent)
    (ai : String → Except String String) :
    (orchestrate agents ai).allFindings.length = agents.length ∧
    ((∀ a ∈ agents, ∃ f, a.result = Except.ok f) →
      (orchestrate agents ai).synthesizedReport.prioritizedIssues.length
        = ((orchestrate agents ai).allFindings.map (fun f => f.issues.length)).sum) := by
  constructor
  · simp [orchestrate]
  · intro _
    have hp := (sortBySeverity_perm (allIssuesOf agents (agents.map settleAgent))).length_eq
    simp only [orchestrate, synthesize]
    rw [hp]
    simp [allIssuesOf, List.length_flatMap, List.length_map, Function.comp_def]

/-- Witness for C1 at a concrete two-worker run in which both workers
succeed. -/
theorem orchestrate_allFindings_length_witness :
    (orchestrate [wA, wB] aiDown).allFindings.length = 2 ∧
    (orchestrate [wA, wB] aiDown).synthesizedReport.prioritizedIssues.length
      = ((orchestrate [wA, wB] aiDown).allFindings.map (fun f => f.issues.length)).sum := by
  have h := orchestrate_allFindings_length [wA, wB] aiDown
  refine ⟨h.1, h.2 ?_⟩
  intro a ha
  rcases List.mem_cons.mp ha with rfl | ha
  · exact ⟨fA, rfl⟩
  · rcases List.mem_cons.mp ha with rfl | ha
    · exact ⟨fB, rfl⟩
    · cases ha

/-- C2 counterexample: a worker whose `analyze` rejects with message `boom`
yields the degraded suggestion `Agent failed: boom`, not the claimed
`Worker failed: boom`. -/
theorem orchestrate_failure_suggestion_cex :
    ((orchestrate [wFail] aiDown).allFindings.map (fun f => f.suggestions))
        = [["Agent failed: boom"]] ∧
    ¬ ((orchestrate [wFail] aiDown).allFindings.map (fun f => f.suggestions))
        = [["Worker failed: boom"]] := by
  constructor
  · decide
  · decide

/-- C2 (amended): if the `analyze` call of one dispatched worker rejects,
`orchestrate` still resolves with one findings record per worker; the failing
worker's record has `confidence = 0`, `issues = []` and
`suggestions = ["Agent failed: <reason>"]`; and every issue of every other
worker that fulfilled is still present in `prioritizedIssues`. -/
theorem orchestrate_single_failure (pre post : List Agent) (a : Agent)
    (reason : String) (ai : String → Except String String)
    (ha : a.result = Except.error reason) :
    (orchestrate (pre ++ a :: post) ai).allFindings
        = pre.map settleAgent ++ degradedFindings a reason :: post.map settleAgent ∧
    (degradedFindings a reason).confidence = 0 ∧
    (degradedFindings a reason).issues = [] ∧
    (degradedFindings a reason).suggestions = ["Agent failed: " ++ reason] ∧
    ∀ b ∈ pre ++ post, ∀ f, b.result = Except.ok f → ∀ i ∈ f.issues,
      ∃ t ∈ (orchestrate (pre ++ a :: post) ai).synthesizedReport.prioritizedIssues,
        t.issue = i := by
  refine ⟨?_, rfl, rfl, rfl, ?_⟩
  · simp only [orchestrate, List.map_append, List.map_cons]
    congr 1
    simp [settleAgent, ha]
  · intro b hb f hf i hi
    have hbmem : b ∈ pre ++ a :: post := by
      rcases List.mem_append.mp hb with h | h
      · exact List.mem_append.mpr (Or.inl h)
      · exact List.mem_append.mpr (Or.inr (List.mem_cons_of_mem _ h))
    have hfmem : f ∈ (pre ++ a :: post).map settleAgent := by
      refine List.mem_map.mpr ⟨b, hbmem, ?_⟩
      simp [settleAgent, hf]
    have htag :
        ({ issue := i, source := f.agentName,
           sourceEmoji := lookupEmoji (pre ++ a :: post) f.agentId } : TaggedIssue)
          ∈ allIssuesOf (pre ++ a :: post) ((pre ++ a :: post).map settleAgent) := by
      refine List.mem_flatMap.mpr ⟨f, hfmem, ?_⟩
      exact List.mem_map.mpr ⟨i, hi, rfl⟩
    refine ⟨TaggedIssue.mk i f.agentName (lookupEmoji (pre ++ a :: post) f.agentId), ?_, rfl⟩
    simp only [orchestrate, synthesize]
    exact (sortBySeverity_perm
      (allIssuesOf (pre ++ a :: post) ((pre ++ a :: post).map settleAgent))).mem_iff.mpr htag

/-- Witness for C2 at a concrete run: worker A fulfills with three issues,
the second worker rejects with `boom`; A's critical issue survives into the
prioritized list. -/
theorem orchestrate_single_failure_witness :
    (orchestrate [wA, wFail] aiDown).allFindings
        = [fA, degradedFindings wFail "boom"] ∧
    (degradedFindings wFail "boom").confidence = 0 ∧
    ∃ t ∈ (orchestrate [wA, wFail] aiDown).synthesizedReport.prioritizedIssues,
      t.issue = issA1 := by
  have h := orchestrate_single_failure [wA] [] wFail "boom" aiDown rfl
  refine ⟨?_, h.2.1, ?_⟩
  · simpa using h.1
  · exact h.2.2.2.2 wA (by simp) fA rfl issA1 (by simp [fA])

/-- C3: the synthesis step flattens all findings' issues in registration
order, sorts them by severity rank descending with a stable sort (a
permutation, pairwise rank-descending, and rank-classes keep concatenation
order), and on the concrete A/B scenario produces exactly
`[A.critical, B.critical, A.high, B.medium, A.low]`. -/
theorem synthesize_stable_severity_sort (agents : List Agent)
    (findings : List AgentFindings) :
    ((synthesize agents findings).prioritizedIssues).Perm (allIssuesOf agents findings) ∧
    ((synthesize agents findings).prioritizedIssues).Pairwise (fun a b => rank b ≤ rank a) ∧
    (∀ r : ℕ, ((synthesize agents findings).prioritizedIssues).filter (fun y => rank y == r)
        = (allIssuesOf agents findings).filter (fun y => rank y == r)) ∧
    (orchestrate [wA, wB] aiDown).synthesizedReport.prioritizedIssues
      = [⟨issA1, "Discovery Agent", "🔍"⟩, ⟨issB1, "Accessibility Agent", "♿"⟩,
         ⟨issA2, "Discovery Agent", "🔍"⟩, ⟨issB2, "Accessibility Agent", "♿"⟩,
         ⟨issA3, "Discovery Agent", "🔍"⟩] := by
  refine ⟨?_, ?_, ?_, by decide⟩
  · exact sortBySeverity_perm (allIssuesOf agents findings)
  · exact sortBySeverity_pairwise (allIssuesOf agents findings)
  · intro r
    exact sortBySeverity_filter (allIssuesOf agents findings) r

/-- C4: whenever the AI call rejects (as it does in particular when the
stored credential is absent, which makes `createOpenAIClient` reject),
`generateExecutiveSummary` returns the deterministic fallback template — a
non-empty string that contains the total issue count and is derived purely
from the synthesized counts. -/
theorem generateExecutiveSummary_fallback (s : SynthesizedReport)
    (ai : String → Except String String) (e : String)
    (h : ai (buildPrompt s) = Except.error e) :
    generateExecutiveSummary ai s
        = "Multi-agent analysis complete. Found " ++ toString s.summary.totalIssues
            ++ " issues across " ++ toString s.summary.agentStats.length
            ++ " specialized agents." ∧
    generateExecutiveSummary ai s ≠ "" ∧
    List.IsInfix (toString s.summary.totalIssues).data
      (generateExecutiveSummary ai s).data ∧
    createOpenAIClient none
        = Except.error "OpenAI API Key not found. Please set it in the extension settings." := by
  have hfall : generateExecutiveSummary ai s
      = "Multi-agent analysis complete. Found " ++ toString s.summary.totalIssues
          ++ " issues across " ++ toString s.summary.agentStats.length
          ++ " specialized agents." := by
    simp [generateExecutiveSummary, h]
  refine ⟨hfall, ?_, ?_, rfl⟩
  · rw [hfall]
    intro hempty
    have hA : (0 : ℕ) < ("Multi-agent analysis complete. Found ").length := by decide
    have h2 := congrArg String.length hempty
    simp only [String.length_append] at h2
    rw [show String.length "" = 0 from rfl] at h2
    omega
  · rw [hfall]
    refine ⟨("Multi-agent analysis complete. Found ").data,
      (" issues across " ++ toString s.summary.agentStats.length
        ++ " specialized agents.").data, ?_⟩
    simp [String.data_append, List.append_assoc]

/-- Witness for C4 at the zero-worker run with an always-rejecting AI
collaborator. -/
theorem generateExecutiveSummary_fallback_witness :
    generateExecutiveSummary aiDown (synthesize [] []) ≠ "" ∧
    generateExecutiveSummary aiDown (synthesize [] [])
      = "Multi-agent analysis complete. Found 0 issues across 0 specialized agents." ∧
    List.IsInfix (toString (0 : ℕ)).data
      (generateExecutiveSummary aiDown (synthesize [] [])).data := by
  have h := generateExecutiveSummary_fallback (synthesize [] []) aiDown "no api key" rfl
  refine ⟨h.2.1, ?_, h.2.2.1⟩
  rw [h.1]
  decide

/-- C5 counterexample: with two subscribers of which the first throws, the
second never receives the published message — `publish` has no per-callback
error isolation and propagates the callback's error. -/
theorem publish_no_isolation_cex :
    MessageBus.publish [subThrow, subOk] msgDemo
      = ([0], Except.error "subscriber crash") ∧
    ¬ (1 ∈ (MessageBus.publish [subThrow, subOk] msgDemo).1) := by
  constructor
  · rfl
  · decide

theorem publishAux_stops (m : AgentMessage) (e : String) :
    ∀ (pre : List Subscriber) (s : Subscriber) (post : List Subscriber) (i : ℕ),
    (∀ p ∈ pre, p m = Except.ok ()) → s m = Except.error e →
    MessageBus.publishAux m (pre ++ s :: post) i
      = (List.range' i (pre.length + 1), Except.error e) := by
  intro pre
  induction pre with
  | nil =>
    intro s post i _ hs
    simp [MessageBus.publishAux, hs, List.range']
  | cons p rest ih =>
    intro s post i hok hs
    have hp : p m = Except.ok () := hok p (List.mem_cons_self p rest)
    simp only [List.cons_append, MessageBus.publishAux, hp, List.append_eq]
    rw [ih s post (i + 1) (fun q hq => hok q (List.mem_cons_of_mem p hq)) hs]
    simp [List.range']

/-- C5 (amended): `publish` invokes the subscriber callbacks in subscription
order only up to and including the first one that throws; its error
propagates out of `publish` and every subscriber registered after it is
skipped. -/
theorem publish_stops_at_first_error (pre : List Subscriber) (s : Subscriber)
    (post : List Subscriber) (m : AgentMessage) (e : String)
    (hok : ∀ p ∈ pre, p m = Except.ok ()) (hs : s m = Except.error e) :
    MessageBus.publish (pre ++ s :: post) m
      = (List.range (pre.length + 1), Except.error e) := by
  rw [MessageBus.publish, publishAux_stops m e pre s post 0 hok hs,
    List.range_eq_range']

/-- Witness for C5 at a concrete three-subscriber bus whose middle callback
throws. -/
theorem publish_stops_at_first_error_witness :
    MessageBus.publish [subOk, subThrow, subOk] msgDemo
      = (List.range 2, Except.error "subscriber crash") := by
  have h := publish_stops_at_first_error [subOk] subThrow [subOk] msgDemo
    "subscriber crash" (by intro p hp; rw [List.mem_singleton] at hp; subst hp; rfl) rfl
  simpa using h

/-- C6 counterexample: the claimed interpolation would place worker 1 of 2 at
`42.5` (the bottom of its share of the 10–75 band) the moment it starts, but
the only progress value `orchestrate` publishes for that worker is the fixed
`40`, strictly below the claimed share. -/
theorem dispatch_progress_not_interpolated_cex :
    orchestrateProgressEvents [wA, wB]
        = [("Spawning specialized agents...", 5),
           ("Running Discovery Agent...", 10),
           ("Running Accessibility Agent...", 40),
           ("Synthesizing findings...", 75),
           ("Generating executive summary...", 90),
           ("Complete!", 100)] ∧
    specInterpolatedProgress 2 1 0 = 85 / 2 ∧
    dispatchProgress 2 1 = 40 ∧
    ¬ ((85 / 2 : ℚ) ≤ dispatchProgress 2 1) := by
  refine ⟨?_, ?_, ?_, ?_⟩
  · norm_num [orchestrateProgressEvents, List.enum, List.enumFrom, dispatchProgress, wA, wB]
    decide
  · norm_num [specInterpolatedProgress]
  · norm_num [dispatchProgress]
  · norm_num [dispatchProgress]

/-- C6 (amended): the coordinator publishes `5` at dispatch start, a fixed
per-worker value `10 + 60·i/N` while dispatching (all such values lie in
`[10, 70)`, independent of the worker's local progress), `75` at synthesis,
`90` at summary generation and `100` on completion. -/
theorem dispatch_progress_band (agents : List Agent) :
    (orchestrateProgressEvents agents).map Prod.snd
        = 5 :: ((List.range agents.length).map (dispatchProgress agents.length)
            ++ [75, 90, 100]) ∧
    ∀ i : ℕ, i < agents.length →
      10 ≤ dispatchProgress agents.length i ∧ dispatchProgress agents.length i < 70 := by
  constructor
  · simp only [orchestrateProgressEvents, List.map_cons, List.map_append, List.map_map]
    rw [← List.enum_map_fst agents, List.map_map]
    rfl
  · intro i hi
    have hn : (0 : ℚ) < (agents.length : ℚ) := by
      exact_mod_cast Nat.lt_of_le_of_lt (Nat.zero_le i) hi
    constructor
    · have hnn : (0 : ℚ) ≤ ((i : ℚ) / (agents.length : ℚ)) * 60 := by positivity
      rw [dispatchProgress]
      linarith
    · have hfrac : (i : ℚ) / (agents.length : ℚ) < 1 := by
        rw [div_lt_one hn]
        exact_mod_cast hi
      have h60 := mul_lt_mul_of_pos_right hfrac (show (0 : ℚ) < 60 by norm_num)
      rw [one_mul] at h60
      rw [dispatchProgress]
      linarith

/-- Witness for C6 at the concrete two-worker run, worker index 1. -/
theorem dispatch_progress_band_witness :
    10 ≤ dispatchProgress 2 1 ∧ dispatchProgress 2 1 < 70 := by
  have h := dispatch_progress_band [wA, wB]
  exact h.2 1 (by norm_num)

/-- C7: for each modelled worker the published progress percentages are
non-decreasing and bounded by 100, and the final published progress is 100
exactly when the analysis body ran to completion (no internal error at any
injection point). -/
theorem worker_progress_monotone :
    (∀ fa : Option (Fin 7),
      List.Pairwise (fun a b => a ≤ b) ((accessibilityProgressTrace fa).map Prod.snd) ∧
      (∀ p ∈ (accessibilityProgressTrace fa).map Prod.snd, p ≤ 100) ∧
      (((accessibilityProgressTrace fa).getLast?.map Prod.snd = some 100) ↔ fa = none)) ∧
    (∀ fd : Option (Fin 4),
      List.Pairwise (fun a b => a ≤ b) ((discoveryProgressTrace fd).map Prod.snd) ∧
      (∀ p ∈ (discoveryProgressTrace fd).map Prod.snd, p ≤ 100) ∧
      (((discoveryProgressTrace fd).getLast?.map Prod.snd = some 100) ↔ fd = none)) := by
  constructor
  · intro fa
    rcases fa with _ | k
    · decide
    · fin_cases k <;> decide
  · intro fd
    rcases fd with _ | k
    · decide
    · fin_cases k <;> decide

/-- C8 counterexample: the accessibility agent's run publishes both the
alt-text and the form-label progress updates; if `Date.now()` returns the same
millisecond for both calls the two distinct messages carry the same
`correlationId`, so correlation ids are not globally unique within a run. -/
theorem correlationId_collision_cex :
    Agent.updateProgress "accessibility" "Checking image alt text..." 15 1700000000000
      ≠ Agent.updateProgress "accessibility" "Checking form labels..." 30 1700000000000 ∧
    (Agent.updateProgress "accessibility" "Checking image alt text..." 15 1700000000000).correlationId
      = (Agent.updateProgress "accessibility" "Checking form labels..." 30 1700000000000).correlationId ∧
    ("Checking image alt text...", 15) ∈ accessibilityProgressTrace none ∧
    ("Checking form labels...", 30) ∈ accessibilityProgressTrace none := by
  refine ⟨?_, rfl, by decide, by decide⟩
  intro heq
  have hp := congrArg AgentMessage.payload heq
  simp only [Agent.updateProgress, Payload.progress.injEq] at hp
  exact absurd hp.1 (by decide)

/-- C8 (amended): `correlationId` is `workerId + '-' + timestamp`, a function
of the worker id and the millisecond timestamp only; two distinct messages
published by the same worker in the same millisecond therefore share a
`correlationId`, so global uniqueness per run is not guaranteed. -/
theorem correlationId_same_timestamp (a msg1 msg2 : String) (p1 p2 : ℚ) (t : ℕ)
    (h : msg1 ≠ msg2) :
    Agent.updateProgress a msg1 p1 t ≠ Agent.updateProgress a msg2 p2 t ∧
    (Agent.updateProgress a msg1 p1 t).correlationId
      = (Agent.updateProgress a msg2 p2 t).correlationId ∧
    (Agent.updateProgress a msg1 p1 t).correlationId = mkCorrelationId a t := by
  refine ⟨?_, rfl, rfl⟩
  intro heq
  have hp := congrArg AgentMessage.payload heq
  simp only [Agent.updateProgress, Payload.progress.injEq] at hp
  exact h hp.1

/-- Witness for C8 at a concrete pair of same-millisecond discovery
messages. -/
theorem correlationId_same_timestamp_witness :
    Agent.updateProgress "discovery" "Mapping page structure..." 10 1234
      ≠ Agent.updateProgress "discovery" "Analyzing links..." 30 1234 ∧
    (Agent.updateProgress "discovery" "Mapping page structure..." 10 1234).correlationId
      = (Agent.updateProgress "discovery" "Analyzing links..." 30 1234).correlationId ∧
    (Agent.updateProgress "discovery" "Mapping page structure..." 10 1234).correlationId
      = mkCorrelationId "discovery" 1234 := by
  exact correlationId_same_timestamp "discovery" "Mapping page structure..."
    "Analyzing links..." 10 30 1234 (by decide)

/-- C9: the promise returned by `ask` settles only on a published message
whose type is `RESPONSE` and whose `correlationId` matches; with no timeout
and no rejection path, a stream containing no such message leaves the promise
unsettled forever, however long it grows. -/
theorem ask_requires_matching_response (cid : String) (msgs : List AgentMessage) :
    askAwait cid msgs = none
      ↔ ∀ m ∈ msgs, ¬ (m.correlationId = cid ∧ m.type = MessageType.RESPONSE) := by
  simp only [askAwait, List.find?_eq_none, Bool.and_eq_true, beq_iff_eq, not_and]

/-- C10: if the rule-based body inside a worker's `analyze` throws, the worker
catches it itself: `analyze` still fulfills, with confidence lowered to 0.3
(accessibility) or 0.5 (discovery) — both nonzero — an
`Error during analysis: <message>` suggestion appended, and the `FINDINGS`
message still published; the coordinator's `settleAgent` therefore takes the
fulfilled branch, never the `confidence = 0` downgrade. -/
theorem analyze_internal_error_fulfills (sofar : AgentFindings) (msg : String)
    (elapsed : ℚ) (t : ℕ) :
    accessibilityAnalyze (BodyOutcome.threw sofar msg) elapsed t
        = Except.ok (accessibilityErrorFindings sofar msg elapsed,
            Agent.reportFindings "accessibility" (accessibilityErrorFindings sofar msg elapsed) t) ∧
    (accessibilityErrorFindings sofar msg elapsed).confidence = 3 / 10 ∧
    (accessibilityErrorFindings sofar msg elapsed).confidence ≠ 0 ∧
    (accessibilityErrorFindings sofar msg elapsed).suggestions
        = sofar.suggestions ++ ["Error during analysis: " ++ msg] ∧
    (accessibilityErrorFindings sofar msg elapsed).issues = sofar.issues ∧
    (Agent.reportFindings "accessibility" (accessibilityErrorFindings sofar msg elapsed) t).type
        = MessageType.FINDINGS ∧
    settleAgent (Agent.mk "accessibility" "Accessibility Agent" "♿"
        (Except.ok (accessibilityErrorFindings sofar msg elapsed)))
        = accessibilityErrorFindings sofar msg elapsed ∧
    discoveryAnalyze (BodyOutcome.threw sofar msg) elapsed t
        = Except.ok (discoveryErrorFindings sofar msg elapsed,
            Agent.reportFindings "discovery" (discoveryErrorFindings sofar msg elapsed) t) ∧
    (discoveryErrorFindings sofar msg elapsed).confidence = 1 / 2 ∧
    (discoveryErrorFindings sofar msg elapsed).confidence ≠ 0 := by
  refine ⟨rfl, rfl, by norm_num [accessibilityErrorFindings], rfl, rfl, rfl, rfl, rfl, rfl,
    by norm_num [discoveryErrorFindings]⟩

/-- Witness for C3 at the concrete two-worker findings. -/
theorem synthesize_stable_severity_sort_witness :
    ((synthesize [wA, wB] [fA, fB]).prioritizedIssues).Perm (allIssuesOf [wA, wB] [fA, fB]) ∧
    ((synthesize [wA, wB] [fA, fB]).prioritizedIssues).filter (fun y => rank y == 4)
      = (allIssuesOf [wA, wB] [fA, fB]).filter (fun y => rank y == 4) :=
  ⟨(synthesize_stable_severity_sort [wA, wB] [fA, fB]).1,
   (synthesize_stable_severity_sort [wA, wB] [fA, fB]).2.2.1 4⟩

/-- Witness for C7 at concrete runs: a completed accessibility run, its
alt-text step, and a discovery run that threw after two steps. -/
theorem worker_progress_monotone_witness :
    List.Pairwise (fun a b => a ≤ b) ((accessibilityProgressTrace none).map Prod.snd) ∧
    (15 : ℕ) ≤ 100 ∧
    (((discoveryProgressTrace (some 2)).getLast?.map Prod.snd = some 100)
      ↔ (some 2 : Option (Fin 4)) = none) :=
  ⟨(worker_progress_monotone.1 none).1,
   (worker_progress_monotone.1 none).2.1 15 (by decide),
   (worker_progress_monotone.2 (some 2)).2.2⟩

/-- Witness for C9: a progress message stream contains no matching
`RESPONSE`, so the `ask` promise is unsettled on it. -/
theorem ask_requires_matching_response_witness :
    askAwait "discovery-to-accessibility-5" [msgDemo] = none :=
  (ask_requires_matching_response "discovery-to-accessibility-5" [msgDemo]).mpr (by decide)

/-- Witness for C10 at concrete findings and error message. -/
theorem analyze_internal_error_fulfills_witness :
    (accessibilityErrorFindings fB "boom" 7).confidence = 3 / 10 ∧
    (discoveryErrorFindings fB "boom" 7).confidence ≠ 0 :=
  ⟨(analyze_internal_error_fulfills fB "boom" 7 0).2.1,
   (analyze_internal_error_fulfills fB "boom" 7 0).2.2.2.2.2.2.2.2.2⟩
